import Mathlib

/-!
A shallow embedding of smartups_monitor.py (Thermi/smartups_monitor).

The embedding models, faithfully to the Python source:

* the Python values flowing through the monitor (ints, floats, strings) as
  PyVal, with floats represented by rationals; every comparison the monitor
  performs is exact for the values involved, so the rational model decides
  each comparison the same way the binary floats do;
* the Python runtime errors raised by the dynamic comparisons and
  conversions (TypeError, ValueError, ZeroDivisionError) as PyErr,
  propagated through Except exactly where the source has no try/except;
* the SmartUPS read methods: each raw register read may fail (the source
  wraps each one in try/except), a failing read is an Option.none input and
  each read method maps it to the exact fallback value the source returns
  ("" for battery voltage, temperature and restart time, 0 for estimated
  time, output voltage and the charge computation, "FAULT" for the state);
* SmartUpsMonitor.check_ups (the Python name starts with two underscores)
  as checkUps, threading the monitor state through the checks in source
  order and collecting the emitted log and shutdown effects as a trace;
* SmartUpsMonitor.shut_down as shut_down;
* one iteration of the dispatcher loop body of SmartUpsMonitor.main as
  processPollResult, taking as input the fd/flags list that poll returned.

Debug and info log lines are modelled only as trace tags; message text and
the socket recv/send bookkeeping of the loop are not modelled.
-/

namespace SmartUps

/-- Python runtime errors raised by the operations the monitor performs. -/
inductive PyErr where
  | typeError
  | valueError
  | zeroDivisionError
deriving DecidableEq

/-- Python values flowing through the monitor: ints, floats (as rationals)
and strings. -/
inductive PyVal where
  | vint : Int → PyVal
  | vfloat : Rat → PyVal
  | vstr : String → PyVal
deriving DecidableEq

/-- Numeric view of a Python value (ints and floats compare numerically). -/
def pyNum : PyVal → Option Rat
  | .vint i => some (i : Rat)
  | .vfloat q => some q
  | .vstr _ => none

/-- Python comparison a < b for the value shapes the monitor produces:
number against number compares numerically, string against string
lexicographically, and a mixed comparison raises TypeError. -/
def pyLt (a b : PyVal) : Except PyErr Bool :=
  match pyNum a, pyNum b with
  | some x, some y => .ok (decide (x < y))
  | _, _ =>
    match a, b with
    | .vstr s, .vstr t => .ok (decide (s < t))
    | _, _ => .error .typeError

/-- Python comparison a > b, which for ints, floats and strings agrees with
b < a. -/
def pyGt (a b : PyVal) : Except PyErr Bool :=
  pyLt b a

/-- Python float(x): ints convert exactly, floats pass through; the only
string the monitor ever passes to float is the empty failure marker, and
float of the empty string raises ValueError. -/
def pyFloat : PyVal → Except PyErr Rat
  | .vint i => .ok (i : Rat)
  | .vfloat q => .ok q
  | .vstr _ => .error .valueError

/-- One sample of the raw register reads used by check_ups; none models the
underlying I2C read raising inside the try block of the read method. -/
structure UpsReads where
  outputVoltage : Option Nat
  battVoltage : Option Nat
  battTemperature : Option Nat
  battCapacity : Option Nat
  maxCapacity : Option Nat
  battState : Option Nat
  estimatedTime : Option Nat
  restartTime : Option Nat

/-- SmartUPS.read_output_voltage: the 16-bit register value, 0 on a failed
read. -/
def read_output_voltage (r : UpsReads) : PyVal :=
  match r.outputVoltage with
  | some v => .vint v
  | none => .vint 0

/-- SmartUPS.read_batt_voltage: the 16-bit register value, the empty string
on a failed read. -/
def read_batt_voltage (r : UpsReads) : PyVal :=
  match r.battVoltage with
  | some v => .vint v
  | none => .vstr ""

/-- SmartUPS.read_batt_temperature: the byte register value, the empty
string on a failed read. -/
def read_batt_temperature (r : UpsReads) : PyVal :=
  match r.battTemperature with
  | some v => .vint v
  | none => .vstr ""

/-- SmartUPS.read_batt_estimated_time: the 16-bit register value, 0 on a
failed read. -/
def read_batt_estimated_time (r : UpsReads) : PyVal :=
  match r.estimatedTime with
  | some v => .vint v
  | none => .vint 0

/-- SmartUPS.read_restart_time: the byte register value, the empty string
on a failed read. -/
def read_restart_time (r : UpsReads) : PyVal :=
  match r.restartTime with
  | some v => .vint v
  | none => .vstr ""

/-- The state name table of SmartUPS.read_batt_state, in source order. -/
def stateNames : List String :=
  ["IDLE", "PRECHARG", "CHARGING", "TOPUP", "CHARGED", "DISCHARGING",
   "CRITICAL", "DISCHARGED", "FAULT", "SHUTDOWN"]

/-- Decoding of the raw state byte in SmartUPS.read_batt_state: indexing
the table raises IndexError for bytes outside the table, the surrounding
try/except turns that into the fallback "FAULT". -/
def decodeState (b : Nat) : String :=
  (stateNames.get? b).getD "FAULT"

/-- SmartUPS.read_batt_state: decode the state byte; a failed register read
also lands in the except branch and returns "FAULT". -/
def read_batt_state (r : UpsReads) : String :=
  match r.battState with
  | some v => decodeState v
  | none => "FAULT"

/-- The arithmetic of SmartUPS.read_charge: capacity times 100 divided by
(1 + max capacity); Python raises ZeroDivisionError when the denominator is
zero, and true division of ints yields a float. -/
def chargeExpr (c mx : Nat) : Except PyErr Rat :=
  if 1 + mx = 0 then .error .zeroDivisionError
  else .ok ((c * 100 : Rat) / ((1 + mx : Nat) : Rat))

/-- SmartUPS.read_charge: the charge expression over the two capacity
registers; any exception inside the try block (a failed register read or a
division error) is caught and 0 is returned. -/
def read_charge (r : UpsReads) : PyVal :=
  match r.battCapacity, r.maxCapacity with
  | some c, some mx =>
    match chargeExpr c mx with
    | .ok q => .vfloat q
    | .error _ => .vint 0
  | _, _ => .vint 0

/-- OpenElectronsI2cFixed.read_integer: b0 + (b1 shifted left by 8). -/
def read_integer (b0 b1 : Nat) : Nat :=
  b0 + b1 * 2 ^ 8

/-- ctypes.c_int(a).value: reduction of a modulo 2 ^ 32 into the signed
32-bit range. -/
def c_int_value (a : Nat) : Int :=
  if a % 2 ^ 32 < 2 ^ 31 then ((a % 2 ^ 32 : Nat) : Int)
  else ((a % 2 ^ 32 : Nat) : Int) - 2 ^ 32

/-- OpenElectronsI2cFixed.read_integer_signed over the two raw register
bytes. -/
def read_integer_signed (b0 b1 : Nat) : Int :=
  c_int_value (read_integer b0 b1)

/-- SmartUPS.read_batt_current: the signed-read helper over the two raw
bytes of the current register, the empty string on a failed read. -/
def read_batt_current (b : Option (Nat × Nat)) : PyVal :=
  match b with
  | some (b0, b1) => .vint (read_integer_signed b0 b1)
  | none => .vstr ""

/-- The configuration and mutable state of SmartUpsMonitor that check_ups
and shut_down use. inhibited starts false; the thresholds carry the
constructor defaults unless the configuration overrides them. -/
structure Monitor where
  inhibited : Bool
  test : Bool
  batteryThreshold : Rat
  batteryTemperatureThreshold : Int
  inputVoltageThreshold : Rat

/-- The constructor defaults of SmartUpsMonitor: battery threshold 0
(commented broken in the firmware), temperature threshold 60, input voltage
threshold 3.3, test mode off, shutdown not inhibited. -/
def defaultMonitor : Monitor :=
  { inhibited := false
    test := false
    batteryThreshold := 0
    batteryTemperatureThreshold := 60
    inputVoltageThreshold := 33 / 10 }

/-- The observable effects emitted by one pass of check_ups, in source
order: the leveled log lines of each check and the two side effects of
shut_down (the UPS shutdown command write and the OS shutdown call). -/
inductive Action where
  | warnVoltage
  | infoVoltage
  | warnTemperature
  | infoTemperature
  | warnInputVoltage
  | infoInputVoltage
  | errCharge
  | infoCharge
  | errRuntime
  | infoRuntime
  | critRestart
  | critShutdownSignal
  | upsShutdownCommand
  | osShutdown
deriving DecidableEq

/-- SmartUpsMonitor.shut_down: always log the critical line; when neither
inhibited nor in test mode, optionally write the UPS shutdown command, set
the inhibited latch and issue the OS shutdown call. -/
def shut_down (m : Monitor) (ups : Bool) : Monitor × List Action :=
  if !m.inhibited && !m.test then
    ({ m with inhibited := true },
      Action.critShutdownSignal ::
        ((if ups then [Action.upsShutdownCommand] else []) ++ [Action.osShutdown]))
  else (m, [Action.critShutdownSignal])

/-- The first check of check_ups: float(read_output_voltage()) against the
battery threshold; below warns, otherwise an info line. -/
def voltageCheck (m : Monitor) (r : UpsReads) : Except PyErr (List Action) :=
  match pyFloat (read_output_voltage r) with
  | .error e => .error e
  | .ok battery_voltage =>
    .ok (if battery_voltage < m.batteryThreshold then [Action.warnVoltage]
      else [Action.infoVoltage])

/-- The second check of check_ups: read_batt_temperature() compared, with
Python dynamic typing, against the temperature threshold. -/
def temperatureCheck (m : Monitor) (r : UpsReads) : Except PyErr (List Action) :=
  match pyGt (read_batt_temperature r) (.vint m.batteryTemperatureThreshold) with
  | .error e => .error e
  | .ok b =>
    .ok (if b then [Action.warnTemperature] else [Action.infoTemperature])

/-- The third check of check_ups: float(read_batt_voltage()) divided by
1000 against the input voltage threshold. -/
def inputVoltageCheck (m : Monitor) (r : UpsReads) : Except PyErr (List Action) :=
  match pyFloat (read_batt_voltage r) with
  | .error e => .error e
  | .ok input_voltage =>
    .ok (if input_voltage / 1000 < m.inputVoltageThreshold then
        [Action.warnInputVoltage]
      else [Action.infoInputVoltage])

/-- The draining states listed in the charge check of check_ups. -/
def dischargingStates : List String :=
  ["DISCHARGING", "CRITICAL", "DISCHARGED", "FAULT"]

/-- The charge check of check_ups: when the battery state is one of the
draining states and read_charge() compares below the float literal 0.25,
log the error line and call shut_down; otherwise an info line. The
membership test is evaluated first, as the Python and short-circuits. -/
def chargeCheck (m : Monitor) (r : UpsReads) : Except PyErr (Monitor × List Action) :=
  if dischargingStates.contains (read_batt_state r) then
    match pyLt (read_charge r) (.vfloat (1 / 4)) with
    | .error e => .error e
    | .ok true =>
      .ok ((shut_down m false).1, Action.errCharge :: (shut_down m false).2)
    | .ok false => .ok (m, [Action.infoCharge])
  else .ok (m, [Action.infoCharge])

/-- The runtime check of check_ups: read_batt_estimated_time() below 60
logs the error line and calls shut_down; otherwise an info line. -/
def runtimeCheck (m : Monitor) (r : UpsReads) : Except PyErr (Monitor × List Action) :=
  match pyLt (read_batt_estimated_time r) (.vint 60) with
  | .error e => .error e
  | .ok true =>
    .ok ((shut_down m false).1, Action.errRuntime :: (shut_down m false).2)
  | .ok false => .ok (m, [Action.infoRuntime])

/-- The restart check of check_ups: when read_restart_time() is above 0 and
the latch is not set, log the critical line and call shut_down. The
comparison is evaluated first, as the Python and short-circuits. -/
def restartCheck (m : Monitor) (r : UpsReads) : Except PyErr (Monitor × List Action) :=
  match pyGt (read_restart_time r) (.vint 0) with
  | .error e => .error e
  | .ok true =>
    if m.inhibited then .ok (m, [])
    else .ok ((shut_down m false).1, Action.critRestart :: (shut_down m false).2)
  | .ok false => .ok (m, [])

/-- SmartUpsMonitor.check_ups: the six checks in source order, threading
the monitor state (the inhibited latch) left to right and concatenating
the emitted effects; an uncaught Python error aborts the whole pass. -/
def checkUps (m : Monitor) (r : UpsReads) : Except PyErr (Monitor × List Action) :=
  match voltageCheck m r with
  | .error e => .error e
  | .ok a1 =>
    match temperatureCheck m r with
    | .error e => .error e
    | .ok a2 =>
      match inputVoltageCheck m r with
      | .error e => .error e
      | .ok a3 =>
        match chargeCheck m r with
        | .error e => .error e
        | .ok (m1, a4) =>
          match runtimeCheck m1 r with
          | .error e => .error e
          | .ok (m2, a5) =>
            match restartCheck m2 r with
            | .error e => .error e
            | .ok (m3, a6) => .ok (m3, a1 ++ a2 ++ a3 ++ a4 ++ a5 ++ a6)

/-- The number of OS shutdown calls in an effect trace. -/
def countShutdown : List Action → Nat
  | [] => 0
  | x :: rest => (if x = Action.osShutdown then 1 else 0) + countShutdown rest

/-- Shutdown trigger A as evaluated by the code: draining state and charge
value below the literal 0.25. -/
def triggerA (r : UpsReads) : Prop :=
  dischargingStates.contains (read_batt_state r) = true ∧
    pyLt (read_charge r) (.vfloat (1 / 4)) = .ok true

/-- Shutdown trigger B as evaluated by the code: estimated runtime below
60. -/
def triggerB (r : UpsReads) : Prop :=
  pyLt (read_batt_estimated_time r) (.vint 60) = .ok true

/-- Shutdown trigger C as evaluated by the code: restart time above 0 (the
not-inhibited half of the condition is the state the checks thread). -/
def triggerC (r : UpsReads) : Prop :=
  pyGt (read_restart_time r) (.vint 0) = .ok true

/-- The value of select.POLLIN on Linux. -/
def pollin : Nat := 1

/-- The dispatcher-visible happenings inside one loop iteration of
SmartUpsMonitor.main. -/
inductive LoopEvent where
  | termObserved
  | evalStarted
  | unknownFdWarning
deriving DecidableEq

/-- One entry of the fd/flags list inside the dispatcher loop body: the
handler fd branch logs the termination observation, the waiter fd branch
invokes check_ups. The source tests POLLIN == flag_set or POLLIN in
flag_set; when the flags differ from POLLIN the membership test on an int
raises TypeError. -/
def processFdEntry (hfd wfd fd flags : Nat) : Except PyErr (List LoopEvent) :=
  if fd = hfd then
    if flags = pollin then .ok [LoopEvent.termObserved] else .error .typeError
  else if fd = wfd then
    if flags = pollin then .ok [LoopEvent.evalStarted] else .error .typeError
  else .ok [LoopEvent.unknownFdWarning]

/-- The for loop over the poll result inside one dispatcher iteration:
every returned entry is processed in order, with no break between entries
(the break_out variable of the source is assigned once and never used). -/
def processPollResult (hfd wfd : Nat) : List (Nat × Nat) → Except PyErr (List LoopEvent)
  | [] => .ok []
  | (fd, flags) :: rest =>
    match processFdEntry hfd wfd fd flags with
    | .error e => .error e
    | .ok evs =>
      match processPollResult hfd wfd rest with
      | .error e => .error e
      | .ok evs2 => .ok (evs ++ evs2)

/-- Whether a trace contains an evaluation start. -/
def containsEval : List LoopEvent → Bool
  | [] => false
  | LoopEvent.evalStarted :: _ => true
  | _ :: rest => containsEval rest

/-- Whether a trace starts a telemetry evaluation strictly after a
termination observation. -/
def evalAfterTermObserved : List LoopEvent → Bool
  | [] => false
  | LoopEvent.termObserved :: rest => containsEval rest || evalAfterTermObserved rest
  | _ :: rest => evalAfterTermObserved rest

/-- The snapshot of the C1 scenario: capacity 20, max capacity 100, state
byte 5 (DISCHARGING), estimated runtime 120, restart time 0, nominal
voltages and temperature. -/
def c1Reads : UpsReads :=
  { outputVoltage := some 5000
    battVoltage := some 13000
    battTemperature := some 30
    battCapacity := some 20
    maxCapacity := some 100
    battState := some 5
    estimatedTime := some 120
    restartTime := some 0 }

/-- A snapshot whose estimated-runtime read failed while every other field
is nominal and non-triggering (state byte 4 is CHARGED, charge about 89
percent, restart time 0). -/
def c2Reads : UpsReads :=
  { outputVoltage := some 5000
    battVoltage := some 13000
    battTemperature := some 30
    battCapacity := some 90
    maxCapacity := some 100
    battState := some 4
    estimatedTime := none
    restartTime := some 0 }

/-- A snapshot satisfying shutdown trigger B: estimated runtime 30, all
other fields nominal. -/
def c3Reads : UpsReads :=
  { outputVoltage := some 5000
    battVoltage := some 13000
    battTemperature := some 30
    battCapacity := some 90
    maxCapacity := some 100
    battState := some 4
    estimatedTime := some 30
    restartTime := some 0 }

/-- The monitor after the inhibited latch has been set. -/
def latchedMonitor : Monitor :=
  { defaultMonitor with inhibited := true }

/-- The default monitor with the test-mode flag set. -/
def testMonitor : Monitor :=
  { defaultMonitor with test := true }

/-- The effect trace of the first triggering pass over c3Reads. -/
def c3FirstActions : List Action :=
  [Action.infoVoltage, Action.infoTemperature, Action.infoInputVoltage,
   Action.infoCharge, Action.errRuntime, Action.critShutdownSignal,
   Action.osShutdown]

/-- The effect trace of the second pass over c3Reads, after the latch. -/
def c3SecondActions : List Action :=
  [Action.infoVoltage, Action.infoTemperature, Action.infoInputVoltage,
   Action.infoCharge, Action.errRuntime, Action.critShutdownSignal]

/-- A snapshot with both capacity registers reading 0 and every other
field nominal. -/
def zeroCapReads : UpsReads :=
  { outputVoltage := some 5000
    battVoltage := some 13000
    battTemperature := some 30
    battCapacity := some 0
    maxCapacity := some 0
    battState := some 2
    estimatedTime := some 120
    restartTime := some 0 }

/-- A snapshot whose battery-temperature read failed, all else nominal. -/
def tempFailReads : UpsReads :=
  { outputVoltage := some 5000
    battVoltage := some 13000
    battTemperature := none
    battCapacity := some 90
    maxCapacity := some 100
    battState := some 4
    estimatedTime := some 120
    restartTime := some 0 }

/-- A snapshot whose battery-voltage read failed, all else nominal. -/
def voltFailReads : UpsReads :=
  { outputVoltage := some 5000
    battVoltage := none
    battTemperature := some 30
    battCapacity := some 90
    maxCapacity := some 100
    battState := some 4
    estimatedTime := some 120
    restartTime := some 0 }


theorem countShutdown_append (l1 l2 : List Action) :
    countShutdown (l1 ++ l2) = countShutdown l1 + countShutdown l2 := by
  induction l1 with
  | nil => simp [countShutdown]
  | cons x l ih => simp [countShutdown, ih]; omega

theorem shut_down_noop_of_inhibited (m : Monitor) (u : Bool) (h : m.inhibited = true) :
    shut_down m u = (m, [Action.critShutdownSignal]) := by
  simp [shut_down, h]

theorem shut_down_noop_of_test (m : Monitor) (u : Bool) (h : m.test = true) :
    shut_down m u = (m, [Action.critShutdownSignal]) := by
  simp [shut_down, h]

theorem shut_down_fires (m : Monitor) (h1 : m.inhibited = false) (h2 : m.test = false) :
    shut_down m false =
      ({ m with inhibited := true },
        [Action.critShutdownSignal, Action.osShutdown]) := by
  simp [shut_down, h1, h2]

theorem chargeCheck_spec (m : Monitor) (r : UpsReads) (m2 : Monitor) (a : List Action)
    (h : chargeCheck m r = .ok (m2, a)) :
    (m2 = m ∧ countShutdown a = 0) ∨
      (m2 = { m with inhibited := true } ∧ m.inhibited = false ∧ m.test = false ∧
        countShutdown a = 1) := by
  unfold chargeCheck at h
  split at h
  · rcases hlt : pyLt (read_charge r) (.vfloat (1 / 4)) with e | b
    · simp only [hlt] at h
      exact Except.noConfusion h
    · simp only [hlt] at h
      cases b
      · simp only [Except.ok.injEq, Prod.mk.injEq] at h
        exact Or.inl ⟨h.1.symm, h.2 ▸ rfl⟩
      · rcases Bool.eq_false_or_eq_true m.inhibited with hi | hi
        · rw [shut_down_noop_of_inhibited m false hi] at h
          simp only [Except.ok.injEq, Prod.mk.injEq] at h
          exact Or.inl ⟨h.1.symm, h.2 ▸ rfl⟩
        · rcases Bool.eq_false_or_eq_true m.test with ht | ht
          · rw [shut_down_noop_of_test m false ht] at h
            simp only [Except.ok.injEq, Prod.mk.injEq] at h
            exact Or.inl ⟨h.1.symm, h.2 ▸ rfl⟩
          · rw [shut_down_fires m hi ht] at h
            simp only [Except.ok.injEq, Prod.mk.injEq] at h
            exact Or.inr ⟨h.1.symm, hi, ht, h.2 ▸ rfl⟩
  · simp only [Except.ok.injEq, Prod.mk.injEq] at h
    exact Or.inl ⟨h.1.symm, h.2 ▸ rfl⟩

theorem runtimeCheck_spec (m : Monitor) (r : UpsReads) (m2 : Monitor) (a : List Action)
    (h : runtimeCheck m r = .ok (m2, a)) :
    (m2 = m ∧ countShutdown a = 0) ∨
      (m2 = { m with inhibited := true } ∧ m.inhibited = false ∧ m.test = false ∧
        countShutdown a = 1) := by
  unfold runtimeCheck at h
  rcases hlt : pyLt (read_batt_estimated_time r) (.vint 60) with e | b
  · simp only [hlt] at h
    exact Except.noConfusion h
  · simp only [hlt] at h
    cases b
    · simp only [Except.ok.injEq, Prod.mk.injEq] at h
      exact Or.inl ⟨h.1.symm, h.2 ▸ rfl⟩
    · rcases Bool.eq_false_or_eq_true m.inhibited with hi | hi
      · rw [shut_down_noop_of_inhibited m false hi] at h
        simp only [Except.ok.injEq, Prod.mk.injEq] at h
        exact Or.inl ⟨h.1.symm, h.2 ▸ rfl⟩
      · rcases Bool.eq_false_or_eq_true m.test with ht | ht
        · rw [shut_down_noop_of_test m false ht] at h
          simp only [Except.ok.injEq, Prod.mk.injEq] at h
          exact Or.inl ⟨h.1.symm, h.2 ▸ rfl⟩
        · rw [shut_down_fires m hi ht] at h
          simp only [Except.ok.injEq, Prod.mk.injEq] at h
          exact Or.inr ⟨h.1.symm, hi, ht, h.2 ▸ rfl⟩

theorem restartCheck_spec (m : Monitor) (r : UpsReads) (m2 : Monitor) (a : List Action)
    (h : restartCheck m r = .ok (m2, a)) :
    (m2 = m ∧ countShutdown a = 0) ∨
      (m2 = { m with inhibited := true } ∧ m.inhibited = false ∧ m.test = false ∧
        countShutdown a = 1) := by
  unfold restartCheck at h
  rcases hgt : pyGt (read_restart_time r) (.vint 0) with e | b
  · simp only [hgt] at h
    exact Except.noConfusion h
  · simp only [hgt] at h
    cases b
    · simp only [Except.ok.injEq, Prod.mk.injEq] at h
      exact Or.inl ⟨h.1.symm, h.2 ▸ rfl⟩
    · rcases Bool.eq_false_or_eq_true m.inhibited with hi | hi
      · rw [if_pos hi] at h
        simp only [Except.ok.injEq, Prod.mk.injEq] at h
        exact Or.inl ⟨h.1.symm, h.2 ▸ rfl⟩
      · rw [if_neg (by simp [hi])] at h
        rcases Bool.eq_false_or_eq_true m.test with ht | ht
        · rw [shut_down_noop_of_test m false ht] at h
          simp only [Except.ok.injEq, Prod.mk.injEq] at h
          exact Or.inl ⟨h.1.symm, h.2 ▸ rfl⟩
        · rw [shut_down_fires m hi ht] at h
          simp only [Except.ok.injEq, Prod.mk.injEq] at h
          exact Or.inr ⟨h.1.symm, hi, ht, h.2 ▸ rfl⟩

theorem voltageCheck_count (m : Monitor) (r : UpsReads) (a : List Action)
    (h : voltageCheck m r = .ok a) : countShutdown a = 0 := by
  unfold voltageCheck at h
  rcases hf : pyFloat (read_output_voltage r) with e | v
  · simp only [hf] at h
    exact Except.noConfusion h
  · simp only [hf, Except.ok.injEq] at h
    rw [← h]
    split
    · rfl
    · rfl

theorem temperatureCheck_count (m : Monitor) (r : UpsReads) (a : List Action)
    (h : temperatureCheck m r = .ok a) : countShutdown a = 0 := by
  unfold temperatureCheck at h
  rcases hg : pyGt (read_batt_temperature r) (.vint m.batteryTemperatureThreshold) with e | b
  · simp only [hg] at h
    exact Except.noConfusion h
  · simp only [hg, Except.ok.injEq] at h
    rw [← h]
    split
    · rfl
    · rfl

theorem inputVoltageCheck_count (m : Monitor) (r : UpsReads) (a : List Action)
    (h : inputVoltageCheck m r = .ok a) : countShutdown a = 0 := by
  unfold inputVoltageCheck at h
  rcases hf : pyFloat (read_batt_voltage r) with e | v
  · simp only [hf] at h
    exact Except.noConfusion h
  · simp only [hf, Except.ok.injEq] at h
    rw [← h]
    split
    · rfl
    · rfl

theorem checkUps_spec (m : Monitor) (r : UpsReads) (m3 : Monitor) (a : List Action)
    (h : checkUps m r = .ok (m3, a)) :
    (m3 = m ∧ countShutdown a = 0) ∨
      (m3 = { m with inhibited := true } ∧ m.inhibited = false ∧ m.test = false ∧
        countShutdown a = 1) := by
  unfold checkUps at h
  rcases h1 : voltageCheck m r with e | a1
  · simp only [h1] at h
    exact Except.noConfusion h
  simp only [h1] at h
  rcases h2 : temperatureCheck m r with e | a2
  · simp only [h2] at h
    exact Except.noConfusion h
  simp only [h2] at h
  rcases h3 : inputVoltageCheck m r with e | a3
  · simp only [h3] at h
    exact Except.noConfusion h
  simp only [h3] at h
  rcases h4 : chargeCheck m r with e | p4
  · simp only [h4] at h
    exact Except.noConfusion h
  obtain ⟨mA, a4⟩ := p4
  simp only [h4] at h
  rcases h5 : runtimeCheck mA r with e | p5
  · simp only [h5] at h
    exact Except.noConfusion h
  obtain ⟨mB, a5⟩ := p5
  simp only [h5] at h
  rcases h6 : restartCheck mB r with e | p6
  · simp only [h6] at h
    exact Except.noConfusion h
  obtain ⟨mC, a6⟩ := p6
  simp only [h6, Except.ok.injEq, Prod.mk.injEq] at h
  obtain ⟨hm, ha⟩ := h
  subst hm
  subst ha
  have c1 := voltageCheck_count m r a1 h1
  have c2 := temperatureCheck_count m r a2 h2
  have c3 := inputVoltageCheck_count m r a3 h3
  have s4 := chargeCheck_spec m r mA a4 h4
  have s5 := runtimeCheck_spec mA r mB a5 h5
  have s6 := restartCheck_spec mB r mC a6 h6
  rcases s4 with ⟨rfl, c4⟩ | ⟨hA, hAi, hAt, c4⟩
  · rcases s5 with ⟨rfl, c5⟩ | ⟨hB, hBi, hBt, c5⟩
    · rcases s6 with ⟨rfl, c6⟩ | ⟨hC, hCi, hCt, c6⟩
      · refine Or.inl ⟨rfl, ?_⟩
        simp [countShutdown_append, c1, c2, c3, c4, c5, c6]
      · refine Or.inr ⟨hC, hCi, hCt, ?_⟩
        simp [countShutdown_append, c1, c2, c3, c4, c5, c6]
    · rcases s6 with ⟨rfl, c6⟩ | ⟨hC, hCi, hCt, c6⟩
      · refine Or.inr ⟨hB, hBi, hBt, ?_⟩
        simp [countShutdown_append, c1, c2, c3, c4, c5, c6]
      · rw [hB] at hCi
        simp at hCi
  · rcases s5 with ⟨rfl, c5⟩ | ⟨hB, hBi, hBt, c5⟩
    · rcases s6 with ⟨rfl, c6⟩ | ⟨hC, hCi, hCt, c6⟩
      · refine Or.inr ⟨hA, hAi, hAt, ?_⟩
        simp [countShutdown_append, c1, c2, c3, c4, c5, c6]
      · rw [hA] at hCi
        simp at hCi
    · rw [hA] at hBi
      simp at hBi

theorem chargeCheck_fire (m : Monitor) (r : UpsReads) (htr : triggerA r)
    (h1 : m.inhibited = false) (h2 : m.test = false) :
    chargeCheck m r =
      .ok ({ m with inhibited := true },
        [Action.errCharge, Action.critShutdownSignal, Action.osShutdown]) := by
  unfold chargeCheck
  rw [if_pos htr.1]
  simp only [htr.2]
  rw [shut_down_fires m h1 h2]

theorem runtimeCheck_fire (m : Monitor) (r : UpsReads) (htr : triggerB r)
    (h1 : m.inhibited = false) (h2 : m.test = false) :
    runtimeCheck m r =
      .ok ({ m with inhibited := true },
        [Action.errRuntime, Action.critShutdownSignal, Action.osShutdown]) := by
  have hlt : pyLt (read_batt_estimated_time r) (.vint 60) = .ok true := htr
  unfold runtimeCheck
  simp only [hlt]
  rw [shut_down_fires m h1 h2]

theorem runtimeCheck_fire_inh (m : Monitor) (r : UpsReads) (htr : triggerB r)
    (h1 : m.inhibited = true) :
    runtimeCheck m r = .ok (m, [Action.errRuntime, Action.critShutdownSignal]) := by
  have hlt : pyLt (read_batt_estimated_time r) (.vint 60) = .ok true := htr
  unfold runtimeCheck
  simp only [hlt]
  rw [shut_down_noop_of_inhibited m false h1]

theorem restartCheck_fire (m : Monitor) (r : UpsReads) (htr : triggerC r)
    (h1 : m.inhibited = false) (h2 : m.test = false) :
    restartCheck m r =
      .ok ({ m with inhibited := true },
        [Action.critRestart, Action.critShutdownSignal, Action.osShutdown]) := by
  have hgt : pyGt (read_restart_time r) (.vint 0) = .ok true := htr
  unfold restartCheck
  simp only [hgt]
  rw [if_neg (by simp [h1])]
  rw [shut_down_fires m h1 h2]

theorem restartCheck_skip_inh (m : Monitor) (r : UpsReads) (htr : triggerC r)
    (h1 : m.inhibited = true) :
    restartCheck m r = .ok (m, []) := by
  have hgt : pyGt (read_restart_time r) (.vint 0) = .ok true := htr
  unfold restartCheck
  simp only [hgt]
  rw [if_pos h1]

theorem checkUps_fires (m : Monitor) (r : UpsReads) (m3 : Monitor) (a : List Action)
    (h : checkUps m r = .ok (m3, a)) (hi : m.inhibited = false) (ht : m.test = false)
    (htr : triggerA r ∨ triggerB r ∨ triggerC r) :
    m3 = { m with inhibited := true } ∧ countShutdown a = 1 := by
  unfold checkUps at h
  rcases h1 : voltageCheck m r with e | a1
  · simp only [h1] at h
    exact Except.noConfusion h
  simp only [h1] at h
  rcases h2 : temperatureCheck m r with e | a2
  · simp only [h2] at h
    exact Except.noConfusion h
  simp only [h2] at h
  rcases h3 : inputVoltageCheck m r with e | a3
  · simp only [h3] at h
    exact Except.noConfusion h
  simp only [h3] at h
  rcases h4 : chargeCheck m r with e | p4
  · simp only [h4] at h
    exact Except.noConfusion h
  obtain ⟨mA, a4⟩ := p4
  simp only [h4] at h
  rcases h5 : runtimeCheck mA r with e | p5
  · simp only [h5] at h
    exact Except.noConfusion h
  obtain ⟨mB, a5⟩ := p5
  simp only [h5] at h
  rcases h6 : restartCheck mB r with e | p6
  · simp only [h6] at h
    exact Except.noConfusion h
  obtain ⟨mC, a6⟩ := p6
  simp only [h6, Except.ok.injEq, Prod.mk.injEq] at h
  obtain ⟨hm, ha⟩ := h
  subst hm
  subst ha
  have c1 := voltageCheck_count m r a1 h1
  have c2 := temperatureCheck_count m r a2 h2
  have c3 := inputVoltageCheck_count m r a3 h3
  have s4 := chargeCheck_spec m r mA a4 h4
  have s5 := runtimeCheck_spec mA r mB a5 h5
  have s6 := restartCheck_spec mB r mC a6 h6
  rcases htr with hA | hB | hC
  · -- trigger A: the charge check fires
    have hfire := chargeCheck_fire m r hA hi ht
    rw [h4] at hfire
    simp only [Except.ok.injEq, Prod.mk.injEq] at hfire
    obtain ⟨hmA, ha4⟩ := hfire
    have hAinh : mA.inhibited = true := by rw [hmA]
    rcases s5 with ⟨hB1, c5⟩ | ⟨hB2, hBi, hBt, c5⟩
    · rcases s6 with ⟨hC1, c6⟩ | ⟨hC2, hCi, hCt, c6⟩
      · refine ⟨by rw [hC1, hB1, hmA], ?_⟩
        simp [countShutdown_append, c1, c2, c3, c5, c6, ha4, countShutdown]
      · rw [hB1] at hCi
        rw [hAinh] at hCi
        exact Bool.noConfusion hCi
    · rw [hAinh] at hBi
      exact Bool.noConfusion hBi
  · -- trigger B: the runtime check fires unless the charge check already did
    rcases s4 with ⟨hA1, c4⟩ | ⟨hA2, hAi, hAt, c4⟩
    · have hfire := runtimeCheck_fire m r hB hi ht
      rw [hA1] at h5
      rw [h5] at hfire
      simp only [Except.ok.injEq, Prod.mk.injEq] at hfire
      obtain ⟨hmB, ha5⟩ := hfire
      have hBinh : mB.inhibited = true := by rw [hmB]
      rcases s6 with ⟨hC1, c6⟩ | ⟨hC2, hCi, hCt, c6⟩
      · refine ⟨by rw [hC1, hmB], ?_⟩
        simp [countShutdown_append, c1, c2, c3, c4, c6, ha5, countShutdown]
      · rw [hBinh] at hCi
        exact Bool.noConfusion hCi
    · have hAinh : mA.inhibited = true := by rw [hA2]
      have hfire := runtimeCheck_fire_inh mA r hB hAinh
      rw [h5] at hfire
      simp only [Except.ok.injEq, Prod.mk.injEq] at hfire
      obtain ⟨hmB, ha5⟩ := hfire
      have hBinh : mB.inhibited = true := by rw [hmB]; exact hAinh
      rcases s6 with ⟨hC1, c6⟩ | ⟨hC2, hCi, hCt, c6⟩
      · refine ⟨by rw [hC1, hmB, hA2], ?_⟩
        simp [countShutdown_append, c1, c2, c3, c4, c6, ha5, countShutdown]
      · rw [hBinh] at hCi
        exact Bool.noConfusion hCi
  · -- trigger C: the restart check fires unless an earlier check already did
    rcases s4 with ⟨hA1, c4⟩ | ⟨hA2, hAi, hAt, c4⟩
    · rcases s5 with ⟨hB1, c5⟩ | ⟨hB2, hBi, hBt, c5⟩
      · have hfire := restartCheck_fire m r hC hi ht
        rw [hB1, hA1] at h6
        rw [h6] at hfire
        simp only [Except.ok.injEq, Prod.mk.injEq] at hfire
        obtain ⟨hmC, ha6⟩ := hfire
        refine ⟨hmC, ?_⟩
        simp [countShutdown_append, c1, c2, c3, c4, c5, ha6, countShutdown]
      · have hBinh : mB.inhibited = true := by rw [hB2]
        have hskip := restartCheck_skip_inh mB r hC hBinh
        rw [h6] at hskip
        simp only [Except.ok.injEq, Prod.mk.injEq] at hskip
        obtain ⟨hmC, ha6⟩ := hskip
        refine ⟨by rw [hmC, hB2, hA1], ?_⟩
        simp [countShutdown_append, c1, c2, c3, c4, c5, ha6, countShutdown]
    · have hAinh : mA.inhibited = true := by rw [hA2]
      rcases s5 with ⟨hB1, c5⟩ | ⟨hB2, hBi, hBt, c5⟩
      · have hBinh : mB.inhibited = true := by rw [hB1]; exact hAinh
        have hskip := restartCheck_skip_inh mB r hC hBinh
        rw [h6] at hskip
        simp only [Except.ok.injEq, Prod.mk.injEq] at hskip
        obtain ⟨hmC, ha6⟩ := hskip
        refine ⟨by rw [hmC, hB1, hA2], ?_⟩
        simp [countShutdown_append, c1, c2, c3, c4, c5, ha6, countShutdown]
      · rw [hAinh] at hBi
        exact Bool.noConfusion hBi

theorem read_output_voltage_int (r : UpsReads) :
    ∃ n : Nat, read_output_voltage r = .vint n := by
  unfold read_output_voltage
  cases r.outputVoltage
  · exact ⟨0, rfl⟩
  · exact ⟨_, rfl⟩

theorem voltageCheck_isOk (m : Monitor) (r : UpsReads) :
    ∃ a, voltageCheck m r = .ok a := by
  obtain ⟨n, hn⟩ := read_output_voltage_int r
  refine ⟨if ((n : Int) : Rat) < m.batteryThreshold then [Action.warnVoltage]
    else [Action.infoVoltage], ?_⟩
  simp only [voltageCheck, hn, pyFloat]

theorem temperatureCheck_isOk (m : Monitor) (r : UpsReads) (t : Nat)
    (h : r.battTemperature = some t) : ∃ a, temperatureCheck m r = .ok a := by
  have hg : pyGt (read_batt_temperature r) (.vint m.batteryTemperatureThreshold)
      = .ok (decide (((m.batteryTemperatureThreshold : Int) : Rat) < ((t : Int) : Rat))) := by
    simp [read_batt_temperature, h, pyGt, pyLt, pyNum]
  refine ⟨if decide (((m.batteryTemperatureThreshold : Int) : Rat) < ((t : Int) : Rat)) = true
      then [Action.warnTemperature] else [Action.infoTemperature], ?_⟩
  simp only [temperatureCheck, hg]

/-- Claim C3: invoking the evaluation twice in succession, the first time with
a snapshot satisfying a shutdown trigger (A, B or C) from an uninhibited,
non-test monitor, causes exactly one OS shutdown invocation (one in the first
pass, none in the second); the inhibited latch is true after the first
triggering pass and is still true after the second; moreover the latch is
never reset by any completed evaluation pass. -/
theorem evaluate_and_act_idempotent :
    (∀ (m : Monitor) (r1 r2 : UpsReads) (m1 m2 : Monitor) (a1 a2 : List Action),
      m.test = false → m.inhibited = false →
      (triggerA r1 ∨ triggerB r1 ∨ triggerC r1) →
      checkUps m r1 = .ok (m1, a1) →
      checkUps m1 r2 = .ok (m2, a2) →
      countShutdown a1 = 1 ∧ m1.inhibited = true ∧
        countShutdown a2 = 0 ∧ m2.inhibited = true) ∧
    ∀ (m : Monitor) (r : UpsReads) (m2 : Monitor) (a : List Action),
      checkUps m r = .ok (m2, a) → m.inhibited = true → m2.inhibited = true := by
  constructor
  · intro m r1 r2 m1 m2 a1 a2 ht hi htr hc1 hc2
    obtain ⟨hm1, hcnt1⟩ := checkUps_fires m r1 m1 a1 hc1 hi ht htr
    have hi1 : m1.inhibited = true := by rw [hm1]
    rcases checkUps_spec m1 r2 m2 a2 hc2 with ⟨hm2, hcnt2⟩ | ⟨hm2, hfalse, ht2, hcnt2⟩
    · exact ⟨hcnt1, hi1, hcnt2, by rw [hm2]; exact hi1⟩
    · rw [hi1] at hfalse
      exact Bool.noConfusion hfalse
  · intro m r m2 a h hi
    rcases checkUps_spec m r m2 a h with ⟨hm2, hc⟩ | ⟨hm2, hfalse, htst, hc⟩
    · rw [hm2]
      exact hi
    · rw [hi] at hfalse
      exact Bool.noConfusion hfalse

theorem evaluate_and_act_idempotent_witness :
    countShutdown c3FirstActions = 1 ∧ latchedMonitor.inhibited = true ∧
      countShutdown c3SecondActions = 0 ∧ latchedMonitor.inhibited = true := by
  have hfirst : checkUps defaultMonitor c3Reads = .ok (latchedMonitor, c3FirstActions) := by
    have hv : voltageCheck defaultMonitor c3Reads = .ok [Action.infoVoltage] := rfl
    have ht : temperatureCheck defaultMonitor c3Reads = .ok [Action.infoTemperature] := rfl
    have hi : inputVoltageCheck defaultMonitor c3Reads = .ok [Action.infoInputVoltage] := by
      have h1 : pyFloat (read_batt_voltage c3Reads) = .ok ((13000 : Int) : Rat) := rfl
      simp only [inputVoltageCheck, h1]
      norm_num [defaultMonitor]
    have hc : chargeCheck defaultMonitor c3Reads = .ok (defaultMonitor, [Action.infoCharge]) := rfl
    have hr : runtimeCheck defaultMonitor c3Reads =
        .ok (latchedMonitor, [Action.errRuntime, Action.critShutdownSignal, Action.osShutdown]) := rfl
    have hre : restartCheck latchedMonitor c3Reads = .ok (latchedMonitor, []) := rfl
    simp only [checkUps, hv, ht, hi, hc, hr, hre]
    rfl
  have hsecond : checkUps latchedMonitor c3Reads = .ok (latchedMonitor, c3SecondActions) := by
    have hv : voltageCheck latchedMonitor c3Reads = .ok [Action.infoVoltage] := rfl
    have ht : temperatureCheck latchedMonitor c3Reads = .ok [Action.infoTemperature] := rfl
    have hi : inputVoltageCheck latchedMonitor c3Reads = .ok [Action.infoInputVoltage] := by
      have h1 : pyFloat (read_batt_voltage c3Reads) = .ok ((13000 : Int) : Rat) := rfl
      simp only [inputVoltageCheck, h1]
      norm_num [defaultMonitor, latchedMonitor]
    have hc : chargeCheck latchedMonitor c3Reads = .ok (latchedMonitor, [Action.infoCharge]) := rfl
    have hr : runtimeCheck latchedMonitor c3Reads =
        .ok (latchedMonitor, [Action.errRuntime, Action.critShutdownSignal]) := rfl
    have hre : restartCheck latchedMonitor c3Reads = .ok (latchedMonitor, []) := rfl
    simp only [checkUps, hv, ht, hi, hc, hr, hre]
    rfl
  exact evaluate_and_act_idempotent.1 defaultMonitor c3Reads c3Reads latchedMonitor
    latchedMonitor c3FirstActions c3SecondActions rfl rfl (Or.inr (Or.inl rfl)) hfirst hsecond

/-- Claim C1 evaluated on the code: for capacity 20, max capacity 100, state
DISCHARGING, estimated runtime 120 and restart time 0, read_charge returns
the percentage 2000/101 (about 19.8), not a fraction in the unit interval,
so the comparison against 0.25 in the charge check is false and the
evaluation pass performs no shutdown action at all: trigger A does not fire
and the monitor state is unchanged, contradicting the claim (and the source
comment saying the shutdown happens below 25 percent charge). -/
theorem checkUps_c1_scenario :
    read_charge c1Reads = .vfloat (2000 / 101) ∧
      checkUps defaultMonitor c1Reads =
        .ok (defaultMonitor,
          [Action.infoVoltage, Action.infoTemperature, Action.infoInputVoltage,
           Action.infoCharge, Action.infoRuntime]) := by
  have hq : read_charge c1Reads = .vfloat (2000 / 101) := by
    have h1 : chargeExpr 20 100 = .ok ((20 * 100 : Rat) / ((1 + 100 : Nat) : Rat)) := by
      unfold chargeExpr
      norm_num
    simp only [read_charge, c1Reads, h1]
    norm_num
  refine ⟨hq, ?_⟩
  have hv : voltageCheck defaultMonitor c1Reads = .ok [Action.infoVoltage] := rfl
  have ht : temperatureCheck defaultMonitor c1Reads = .ok [Action.infoTemperature] := rfl
  have hi : inputVoltageCheck defaultMonitor c1Reads = .ok [Action.infoInputVoltage] := by
    have h1 : pyFloat (read_batt_voltage c1Reads) = .ok ((13000 : Int) : Rat) := rfl
    simp only [inputVoltageCheck, h1]
    norm_num [defaultMonitor]
  have hc : chargeCheck defaultMonitor c1Reads = .ok (defaultMonitor, [Action.infoCharge]) := by
    have hlt : pyLt (read_charge c1Reads) (.vfloat (1 / 4)) = .ok false := by
      rw [hq]
      simp only [pyLt, pyNum]
      rw [decide_eq_false_iff_not.2 (by norm_num)]
    simp only [chargeCheck, hlt]
    rfl
  have hr : runtimeCheck defaultMonitor c1Reads = .ok (defaultMonitor, [Action.infoRuntime]) := rfl
  have hre : restartCheck defaultMonitor c1Reads = .ok (defaultMonitor, []) := rfl
  simp only [checkUps, hv, ht, hi, hc, hr, hre]
  rfl

/-- Claim C2 evaluated on the code: when the estimated-runtime read fails,
read_batt_estimated_time returns the numeric default 0 instead of skipping
the check; 0 compares below 60, so shutdown trigger B fires and the OS
shutdown is invoked on an otherwise nominal snapshot, contradicting the
claim that a failed telemetry field only skips its own check and never
forces a trigger. -/
theorem checkUps_runtime_read_failure :
    read_batt_estimated_time c2Reads = .vint 0 ∧
      checkUps defaultMonitor c2Reads =
        .ok (latchedMonitor,
          [Action.infoVoltage, Action.infoTemperature, Action.infoInputVoltage,
           Action.infoCharge, Action.errRuntime, Action.critShutdownSignal,
           Action.osShutdown]) := by
  refine ⟨rfl, ?_⟩
  have hv : voltageCheck defaultMonitor c2Reads = .ok [Action.infoVoltage] := rfl
  have ht : temperatureCheck defaultMonitor c2Reads = .ok [Action.infoTemperature] := rfl
  have hi : inputVoltageCheck defaultMonitor c2Reads = .ok [Action.infoInputVoltage] := by
    have h1 : pyFloat (read_batt_voltage c2Reads) = .ok ((13000 : Int) : Rat) := rfl
    simp only [inputVoltageCheck, h1]
    norm_num [defaultMonitor]
  have hc : chargeCheck defaultMonitor c2Reads = .ok (defaultMonitor, [Action.infoCharge]) := rfl
  have hr : runtimeCheck defaultMonitor c2Reads =
      .ok (latchedMonitor, [Action.errRuntime, Action.critShutdownSignal, Action.osShutdown]) := rfl
  have hre : restartCheck latchedMonitor c2Reads = .ok (latchedMonitor, []) := rfl
  simp only [checkUps, hv, ht, hi, hc, hr, hre]
  rfl

/-- Claim C4 counterexample: with the test-mode flag set and the latch not
yet set, running the shutdown action leaves shutdown_inhibited false - the
latch is not set unconditionally as the claim states, because the source
guards both the latch assignment and the OS call behind the same
not-inhibited-and-not-test condition. -/
theorem shut_down_test_mode_cex :
    (shut_down testMonitor false).1.inhibited = false := rfl

/-- Claim C4 as amended: when the test-mode flag is set, the shutdown action
only logs the critical line; it neither performs the OS call nor sets the
inhibited latch, leaving the monitor state unchanged. -/
theorem shut_down_test_mode (m : Monitor) (u : Bool) (h : m.test = true) :
    shut_down m u = (m, [Action.critShutdownSignal]) := by
  simp [shut_down, h]

theorem shut_down_test_mode_witness :
    shut_down testMonitor false = (testMonitor, [Action.critShutdownSignal]) :=
  shut_down_test_mode testMonitor false rfl

/-- Claim C5 evaluated on the code: in a dispatcher loop iteration where
poll reports both the signal-handler channel and the waiter channel ready
and returns the handler entry first, the loop body observes the termination
event and then still starts a telemetry evaluation for the waiter entry in
the same iteration, because the for loop never breaks (the break_out
variable of the source is dead); this contradicts the claimed priority of
termination over a pending tick. -/
theorem dispatcher_eval_after_term :
    processPollResult 3 4 [(3, 1), (4, 1)] =
        .ok [LoopEvent.termObserved, LoopEvent.evalStarted] ∧
      evalAfterTermObserved [LoopEvent.termObserved, LoopEvent.evalStarted] = true :=
  ⟨rfl, rfl⟩

/-- Claim C6: battery-state decoding is total; the bytes 0 through 9 decode
to the ten state names in table order (IDLE through SHUTDOWN) and every
byte of value at least 10 decodes to the fail-safe FAULT, with no exception
or out-of-range indexing escaping the read. -/
theorem read_batt_state_decode :
    (∀ b : Nat, 10 ≤ b → decodeState b = "FAULT") ∧
      decodeState 0 = "IDLE" ∧ decodeState 1 = "PRECHARG" ∧
      decodeState 2 = "CHARGING" ∧ decodeState 3 = "TOPUP" ∧
      decodeState 4 = "CHARGED" ∧ decodeState 5 = "DISCHARGING" ∧
      decodeState 6 = "CRITICAL" ∧ decodeState 7 = "DISCHARGED" ∧
      decodeState 8 = "FAULT" ∧ decodeState 9 = "SHUTDOWN" := by
  refine ⟨?_, rfl, rfl, rfl, rfl, rfl, rfl, rfl, rfl, rfl, rfl⟩
  intro b hb
  unfold decodeState
  have hnone : stateNames.get? b = none := by
    rw [List.get?_eq_none]
    simpa [stateNames] using hb
  rw [hnone]
  rfl

theorem read_batt_state_decode_witness : decodeState 200 = "FAULT" :=
  read_batt_state_decode.1 200 (by norm_num)

/-- Claim C7 evaluated on the code: for the register bytes (0, 0x80) the
signed read returns 32768, not the negative 16-bit interpretation -32768,
because ctypes.c_int is 32 bits wide and the 16-bit word is far below the
sign boundary; the result therefore falls outside the claimed signed 16-bit
range. -/
theorem read_batt_current_not_signed16 :
    read_integer_signed 0 128 = 32768 ∧
      read_batt_current (some (0, 128)) = .vint 32768 ∧
      ¬ read_integer_signed 0 128 ≤ 32767 :=
  ⟨rfl, rfl, by decide⟩

/-- Claim C8: the charge computation is total; with both capacities 0 it
returns 0 without a division-by-zero error, and for every pair of unsigned
capacity readings the denominator 1 + max_capacity is nonzero so the
division always succeeds. -/
theorem read_charge_total :
    chargeExpr 0 0 = .ok 0 ∧ read_charge zeroCapReads = .vfloat 0 ∧
      ∀ c mx : Nat, chargeExpr c mx = .ok ((c * 100 : Rat) / ((1 + mx : Nat) : Rat)) := by
  refine ⟨?_, ?_, ?_⟩
  · unfold chargeExpr
    norm_num
  · have h : chargeExpr 0 0 = .ok 0 := by
      unfold chargeExpr
      norm_num
    simp only [read_charge, zeroCapReads, h]
  · intro c mx
    unfold chargeExpr
    rw [if_neg (by omega)]

/-- Claim C9: with the battery threshold configured to 0 (the default), the
output-voltage check emits the info line and never the warning for every
snapshot, because the unsigned reading is never below 0; and for every
threshold the check emits no shutdown action of its own. -/
theorem voltage_check_threshold_zero :
    (∀ (m : Monitor) (r : UpsReads), m.batteryThreshold = 0 →
        voltageCheck m r = .ok [Action.infoVoltage]) ∧
      ∀ (m : Monitor) (r : UpsReads) (a : List Action),
        voltageCheck m r = .ok a → countShutdown a = 0 := by
  constructor
  · intro m r h
    obtain ⟨n, hn⟩ := read_output_voltage_int r
    simp only [voltageCheck, hn, pyFloat, h]
    rw [if_neg (by push_cast; exact not_lt.2 (Nat.cast_nonneg n))]
  · intro m r a h
    exact voltageCheck_count m r a h

theorem voltage_check_threshold_zero_witness :
    voltageCheck defaultMonitor c1Reads = .ok [Action.infoVoltage] :=
  voltage_check_threshold_zero.1 defaultMonitor c1Reads rfl

/-- Claim C10: a failed battery-temperature read makes the whole evaluation
pass abort with a TypeError (the empty-string marker is compared against
the numeric threshold), and a failed battery-voltage read makes it abort
with a ValueError (float of the empty string); in both cases the remaining
checks of the cycle never run, instead of only the failed check being
skipped. -/
theorem failed_read_aborts_cycle :
    (∀ (m : Monitor) (r : UpsReads), r.battTemperature = none →
        checkUps m r = .error PyErr.typeError) ∧
      ∀ (m : Monitor) (r : UpsReads) (t : Nat), r.battTemperature = some t →
        r.battVoltage = none → checkUps m r = .error PyErr.valueError := by
  constructor
  · intro m r h
    obtain ⟨a1, h1⟩ := voltageCheck_isOk m r
    have h2 : temperatureCheck m r = .error PyErr.typeError := by
      simp [temperatureCheck, read_batt_temperature, h, pyGt, pyLt, pyNum]
    simp [checkUps, h1, h2]
  · intro m r t h hv
    obtain ⟨a1, h1⟩ := voltageCheck_isOk m r
    obtain ⟨a2, h2⟩ := temperatureCheck_isOk m r t h
    have h3 : inputVoltageCheck m r = .error PyErr.valueError := by
      simp [inputVoltageCheck, read_batt_voltage, hv, pyFloat]
    simp [checkUps, h1, h2, h3]

theorem failed_read_aborts_cycle_witness :
    checkUps defaultMonitor tempFailReads = .error PyErr.typeError ∧
      checkUps defaultMonitor voltFailReads = .error PyErr.valueError :=
  ⟨failed_read_aborts_cycle.1 defaultMonitor tempFailReads rfl,
   failed_read_aborts_cycle.2 defaultMonitor voltFailReads 30 rfl rfl⟩

end SmartUps
